import Mathlib

/-!
Verification of the AppointifyX multi-tenant appointment store.

This file shallowly embeds the backend's data-access layer
(`src/backend/src/services/AppointmentService.ts`, reproduced inside
`src/backend/src/handlers/appointments.ts`) and the authorization layer
(`src/backend/src/services/AuthService.ts`) and proves or refutes the
testable properties of the specification.

Modelling conventions:
- DynamoDB is modelled as a list of items (`Store`); `get` is key lookup,
  `query` on a GSI is a filter on the GSI partition-key attribute,
  `put`/`update`/`delete` are the corresponding list edits.
- Timestamps carried by appointments (`startTime`, `endTime`) are modelled
  as broken-down calendar date-times (`DateTime`), since the code formats
  them with moment's `YYYY-MM-DD` / `HH:mm:ss` patterns; comparisons
  (Joi's `greater`, filter expressions) are chronological comparisons,
  including the millisecond component that JS `Date` instants carry.
- `createdAt` / `updatedAt` / `ttl` are epoch-second counters (`Nat`).
- Thrown JS errors become `Except ServiceError`; a thrown error leaves the
  caller's store untouched, captured by the `storeAfter…` wrappers.
-/

namespace AppointifyX

/-- A calendar date-time with millisecond precision, the shallow embedding of
the JS `Date` instants the service stores in `startTime` / `endTime`. -/
structure DateTime where
  year : Nat
  month : Nat
  day : Nat
  hour : Nat
  minute : Nat
  second : Nat
  ms : Nat
deriving DecidableEq

/-- Chronological strict comparison of two date-times (field-lexicographic,
the order JS `Date` comparison induces on well-formed dates). -/
def DateTime.ltb (a b : DateTime) : Bool :=
  if a.year < b.year then true else if b.year < a.year then false
  else if a.month < b.month then true else if b.month < a.month then false
  else if a.day < b.day then true else if b.day < a.day then false
  else if a.hour < b.hour then true else if b.hour < a.hour then false
  else if a.minute < b.minute then true else if b.minute < a.minute then false
  else if a.second < b.second then true else if b.second < a.second then false
  else decide (a.ms < b.ms)

/-- Field bounds of a well-formed broken-down date-time; what matters for the
index encoding is that each formatted field fits its fixed digit width. -/
def DateTime.wf (t : DateTime) : Prop :=
  t.year < 10000 ∧ t.month < 100 ∧ t.day < 100 ∧
  t.hour < 100 ∧ t.minute < 100 ∧ t.second < 100

instance (t : DateTime) : Decidable t.wf := by
  unfold DateTime.wf; infer_instance

/-! ### Key codec

`AppointmentService` builds every key by string concatenation
(`appointments.ts` lines 268-271, 310, 320, 399-404). -/

/-- `PK = TENANT#<tenantId>#APPOINTMENT#<appointmentId>` (line 399). -/
def pkOf (tenantId appointmentId : String) : String :=
  "TENANT#" ++ tenantId ++ "#APPOINTMENT#" ++ appointmentId

/-- `SK = APPOINTMENT#<appointmentId>` (line 400). -/
def skOf (appointmentId : String) : String :=
  "APPOINTMENT#" ++ appointmentId

/-- `GSI1PK = TENANT#<tenantId>` (line 401). -/
def gsi1pkOf (tenantId : String) : String :=
  "TENANT#" ++ tenantId

/-- `GSI2PK = TENANT#<tenantId>#USER#<userId>` (line 403). -/
def gsi2pkOf (tenantId userId : String) : String :=
  "TENANT#" ++ tenantId ++ "#USER#" ++ userId

/-- ASCII decimal digit characters, as produced by moment's formatter. -/
def digitChar : Nat → Char
  | 0 => '0'
  | 1 => '1'
  | 2 => '2'
  | 3 => '3'
  | 4 => '4'
  | 5 => '5'
  | 6 => '6'
  | 7 => '7'
  | 8 => '8'
  | 9 => '9'
  | _ => 'X'

/-- Zero-padded fixed-width decimal rendering, most significant digit first. -/
def padDigits : Nat → Nat → List Char
  | 0, _ => []
  | k + 1, n => digitChar (n / 10 ^ k) :: padDigits k (n % 10 ^ k)

/-- Zero-padded fixed-width decimal rendering as a string. -/
def pad (k n : Nat) : String :=
  ⟨padDigits k n⟩

/-- The GSI sort-key encoding of a start time:
`DATE#YYYY-MM-DD#TIME#HH:mm:ss` (lines 402 and 404); moment's format
drops the millisecond component. -/
def gsiSKOf (t : DateTime) : String :=
  "DATE#" ++ pad 4 t.year ++ "-" ++ pad 2 t.month ++ "-" ++ pad 2 t.day ++
  "#TIME#" ++ pad 2 t.hour ++ ":" ++ pad 2 t.minute ++ ":" ++ pad 2 t.second

/-! ### Records and items -/

/-- Appointment status enum (`appointments.ts` line 236). -/
inductive Status where
  | scheduled
  | confirmed
  | cancelled
  | completed
deriving DecidableEq

/-- The `Appointment` record interface (`appointments.ts` lines 226-241). -/
structure Appointment where
  appointmentId : String
  tenantId : String
  userId : String
  title : String
  description : Option String
  startTime : DateTime
  endTime : DateTime
  location : Option String
  attendees : List String
  status : Status
  reminderMinutes : Nat
  createdAt : Nat
  updatedAt : Nat
  ttl : Nat
deriving DecidableEq

/-- A stored DynamoDB item: the key attributes plus the spread appointment
record (`appointments.ts` lines 398-406). -/
structure Item where
  PK : String
  SK : String
  GSI1PK : String
  GSI1SK : String
  GSI2PK : String
  GSI2SK : String
  appt : Appointment
deriving DecidableEq

/-- The DynamoDB table, as a list of items. -/
abbrev Store := List Item

/-- Lookup of an item by its full primary key, the embedding of
`dynamodb.get` / the put condition / the update and delete key targets. -/
def findItem (store : Store) (pk sk : String) : Option Item :=
  store.find? (fun it => it.PK == pk && it.SK == sk)

/-! ### Input validation (Joi schemas, `appointments.ts` lines 204-224)

Joi's `.email()` shape test is modelled as a simple one-`@`-with-dotted-domain
check; no claim depends on the exact email grammar. -/

/-- Simplified email-shape check standing in for Joi's `.email()`. -/
def isEmail (s : String) : Bool :=
  match s.split (· == '@') with
  | [name, domain] => !name.isEmpty && !domain.isEmpty && domain.contains '.'
  | _ => false

/-- The create request body, before validation defaults are applied. -/
structure CreateInput where
  title : String
  description : Option String
  startTime : DateTime
  endTime : DateTime
  location : Option String
  attendees : Option (List String)
  status : Option Status
  reminderMinutes : Option Nat
deriving DecidableEq

/-- `appointmentSchema.validate` (lines 204-213): title 1..200, description
≤ 1000, `endTime` strictly greater than `startTime`, location ≤ 200,
attendees email-shaped, reminderMinutes 0..10080. -/
def createInputValid (i : CreateInput) : Bool :=
  decide (1 ≤ i.title.length) && decide (i.title.length ≤ 200) &&
  (match i.description with | some d => decide (d.length ≤ 1000) | none => true) &&
  DateTime.ltb i.startTime i.endTime &&
  (match i.location with | some l => decide (l.length ≤ 200) | none => true) &&
  (match i.attendees with | some a => a.all isEmail | none => true) &&
  (match i.reminderMinutes with | some m => decide (m ≤ 10080) | none => true)

/-- The update request body: every field optional. -/
structure UpdatePatch where
  title : Option String
  description : Option String
  startTime : Option DateTime
  endTime : Option DateTime
  location : Option String
  attendees : Option (List String)
  status : Option Status
  reminderMinutes : Option Nat
deriving DecidableEq

/-- The empty patch `{}`. -/
def emptyPatch : UpdatePatch :=
  ⟨none, none, none, none, none, none, none, none⟩

/-- `updateAppointmentSchema.validate` (lines 215-224): each supplied field
is checked individually, plus `.min(1)` — at least one field must be
provided.  Note there is no cross-field `endTime > startTime` rule here. -/
def updatePatchValid (p : UpdatePatch) : Bool :=
  (p.title.isSome || p.description.isSome || p.startTime.isSome || p.endTime.isSome ||
   p.location.isSome || p.attendees.isSome || p.status.isSome || p.reminderMinutes.isSome) &&
  (match p.title with | some t => decide (1 ≤ t.length) && decide (t.length ≤ 200) | none => true) &&
  (match p.description with | some d => decide (d.length ≤ 1000) | none => true) &&
  (match p.location with | some l => decide (l.length ≤ 200) | none => true) &&
  (match p.attendees with | some a => a.all isEmail | none => true) &&
  (match p.reminderMinutes with | some m => decide (m ≤ 10080) | none => true)

/-- Merging a validated patch over an existing record, together with the
`updatedAt` bump — this is both the in-memory merge (lines 446-450) and the
effect of the generated `UpdateExpression` (lines 453-463) on the stored
item's record attributes. -/
def UpdatePatch.applyTo (p : UpdatePatch) (a : Appointment) (now : Nat) : Appointment :=
  { a with
    title := p.title.getD a.title
    description := match p.description with | some d => some d | none => a.description
    startTime := p.startTime.getD a.startTime
    endTime := p.endTime.getD a.endTime
    location := match p.location with | some l => some l | none => a.location
    attendees := p.attendees.getD a.attendees
    status := p.status.getD a.status
    reminderMinutes := p.reminderMinutes.getD a.reminderMinutes
    updatedAt := now }

/-! ### Service operations (`AppointmentService`) -/

/-- The error kinds the service throws. -/
inductive ServiceError where
  | validationError
  | accessDenied
  | conflictError
deriving DecidableEq

/-- Query filters accepted by `listAppointments` (lines 243-248); the
`userId` member is populated by the handler but never used by the query. -/
structure AppointmentFilters where
  startDate : Option DateTime
  endDate : Option DateTime
  status : Option Status
  userId : Option String
deriving DecidableEq

/-- The filter expression of `listAppointments` (lines 326-350):
`startTime >= :startDate AND startTime <= :endDate AND #status = :status`,
each conjunct only when supplied. -/
def matchesFilters (f : AppointmentFilters) (a : Appointment) : Bool :=
  (match f.startDate with | some d => !DateTime.ltb a.startTime d | none => true) &&
  (match f.endDate with | some d => !DateTime.ltb d a.startTime | none => true) &&
  (match f.status with | some s => decide (a.status = s) | none => true)

/-- `AppointmentService.getAppointment` (lines 259-292): key lookup, then the
owner check `userRole !== 'super-admin' && appointment.userId !== userId`. -/
def AppointmentService.getAppointment (store : Store)
    (tenantId appointmentId userId userRole : String) :
    Except ServiceError (Option Appointment) :=
  match findItem store (pkOf tenantId appointmentId) (skOf appointmentId) with
  | none => .ok none
  | some item =>
    if userRole != "super-admin" && item.appt.userId != userId then
      .error .accessDenied
    else
      .ok (some item.appt)

/-- `AppointmentService.listAppointments` (lines 294-358): super-admin
queries GSI1 by tenant, every other role queries GSI2 by (tenant, user);
then the filter expression is applied. -/
def AppointmentService.listAppointments (store : Store)
    (tenantId userId userRole : String) (filters : AppointmentFilters) :
    List Appointment :=
  let keyMatched :=
    if userRole == "super-admin" then
      store.filter (fun it => it.GSI1PK == gsi1pkOf tenantId)
    else
      store.filter (fun it => it.GSI2PK == gsi2pkOf tenantId userId)
  (keyMatched.filter (fun it => matchesFilters filters it.appt)).map (fun it => it.appt)

/-- `AppointmentService.createAppointment` (lines 360-418): validate, build
the record with defaults and a 1-year ttl, build the item with all index
keys, and put it under the `attribute_not_exists(PK)` condition.  `newId` is
the generated uuid and `now` the clock reading, passed explicitly. -/
def AppointmentService.createAppointment (store : Store)
    (tenantId userId userRole : String) (input : CreateInput)
    (newId : String) (now : Nat) :
    Except ServiceError (Appointment × Store) :=
  if !(createInputValid input) then
    .error .validationError
  else
    let appointment : Appointment :=
      { appointmentId := newId
        tenantId := tenantId
        userId := userId
        title := input.title
        description := input.description
        startTime := input.startTime
        endTime := input.endTime
        location := input.location
        attendees := input.attendees.getD []
        status := input.status.getD .scheduled
        reminderMinutes := input.reminderMinutes.getD 60
        createdAt := now
        updatedAt := now
        ttl := now + 365 * 24 * 60 * 60 }
    let item : Item :=
      { PK := pkOf tenantId newId
        SK := skOf newId
        GSI1PK := gsi1pkOf tenantId
        GSI1SK := gsiSKOf input.startTime
        GSI2PK := gsi2pkOf tenantId userId
        GSI2SK := gsiSKOf input.startTime
        appt := appointment }
    match findItem store item.PK item.SK with
    | some _ => .error .conflictError
    | none => .ok (appointment, item :: store)

/-- `AppointmentService.updateAppointment` (lines 420-485): validate the
patch, fetch (which authorizes), re-check ownership, then issue an
`UpdateItem` that sets `updatedAt` and exactly the patched attributes — the
GSI sort keys are not among them. -/
def AppointmentService.updateAppointment (store : Store)
    (tenantId appointmentId userId userRole : String)
    (patch : UpdatePatch) (now : Nat) :
    Except ServiceError (Option Appointment × Store) :=
  if !(updatePatchValid patch) then
    .error .validationError
  else
    match AppointmentService.getAppointment store tenantId appointmentId userId userRole with
    | .error e => .error e
    | .ok none => .ok (none, store)
    | .ok (some existing) =>
      if userRole != "super-admin" && existing.userId != userId then
        .error .accessDenied
      else
        let store' := store.map (fun it =>
          if it.PK == pkOf tenantId appointmentId && it.SK == skOf appointmentId then
            { it with appt := patch.applyTo it.appt now }
          else it)
        .ok (some (patch.applyTo existing now), store')

/-- `AppointmentService.deleteAppointment` (lines 487-522): fetch (which
authorizes), re-check ownership, then delete the item at the primary key;
returns found/not-found. -/
def AppointmentService.deleteAppointment (store : Store)
    (tenantId appointmentId userId userRole : String) :
    Except ServiceError (Bool × Store) :=
  match AppointmentService.getAppointment store tenantId appointmentId userId userRole with
  | .error e => .error e
  | .ok none => .ok (false, store)
  | .ok (some existing) =>
    if userRole != "super-admin" && existing.userId != userId then
      .error .accessDenied
    else
      .ok (true, store.filter (fun it =>
        !(it.PK == pkOf tenantId appointmentId && it.SK == skOf appointmentId)))

/-- The store as the caller sees it after `createAppointment`: a thrown error
means no write happened. -/
def storeAfterCreate (store : Store) (tenantId userId userRole : String)
    (input : CreateInput) (newId : String) (now : Nat) : Store :=
  match AppointmentService.createAppointment store tenantId userId userRole input newId now with
  | .ok (_, s) => s
  | .error _ => store

/-- The store as the caller sees it after `updateAppointment`. -/
def storeAfterUpdate (store : Store) (tenantId appointmentId userId userRole : String)
    (patch : UpdatePatch) (now : Nat) : Store :=
  match AppointmentService.updateAppointment store tenantId appointmentId userId userRole patch now with
  | .ok (_, s) => s
  | .error _ => store

/-- The store as the caller sees it after `deleteAppointment`. -/
def storeAfterDelete (store : Store) (tenantId appointmentId userId userRole : String) : Store :=
  match AppointmentService.deleteAppointment store tenantId appointmentId userId userRole with
  | .ok (_, s) => s
  | .error _ => store

/-! ### Authorization (`AuthService.ts`) -/

/-- `AuthService.hasTenantAccess` (lines 105-117). -/
def AuthService.hasTenantAccess (userGroups : List String)
    (userTenantId requestedTenantId : String) : Bool :=
  if userGroups.contains "super-admin" then
    true
  else if userGroups.contains "tenant-admin" || userGroups.contains "tenant-user" then
    userTenantId == requestedTenantId
  else
    false

/-- `AuthService.determineUserRole` (lines 119-133). -/
def AuthService.determineUserRole (userGroups : List String) : String :=
  if userGroups.contains "super-admin" then "super-admin"
  else if userGroups.contains "tenant-admin" then "tenant-admin"
  else "tenant-user"

/-- The result shape of `validateRequest` (lines 5-11). -/
structure AuthResult where
  isValid : Bool
  userId : Option String
  tenantId : Option String
  role : Option String
  error : Option String
deriving DecidableEq

/-- The claims-checking tail of `AuthService.validateRequest` (lines 50-71):
given the decoded token's `sub`, groups and tenant, reject unless
`hasTenantAccess` passes, else return the verified identity and role. -/
def AuthService.validateClaims (sub : String) (userGroups : List String)
    (userTenantId requestedTenantId : String) : AuthResult :=
  if !(AuthService.hasTenantAccess userGroups userTenantId requestedTenantId) then
    { isValid := false, userId := none, tenantId := none, role := none,
      error := some "Access denied to tenant" }
  else
    { isValid := true, userId := some sub, tenantId := some requestedTenantId,
      role := some (AuthService.determineUserRole userGroups), error := none }

/-! ### Concrete demonstration values -/

/-- 2024-06-01T10:00:00.000Z. -/
def demoDTStart : DateTime := ⟨2024, 6, 1, 10, 0, 0, 0⟩

/-- 2024-06-01T10:30:00.000Z. -/
def demoDTEnd : DateTime := ⟨2024, 6, 1, 10, 30, 0, 0⟩

/-- 2024-07-15T09:00:00.000Z, a later start time used in update patches. -/
def demoDTStart2 : DateTime := ⟨2024, 7, 15, 9, 0, 0, 0⟩

/-- 2024-06-01T09:00:00.000Z, one hour before `demoDTStart`. -/
def demoDTEarly : DateTime := ⟨2024, 6, 1, 9, 0, 0, 0⟩

/-- The create body of the spec's scenario: title `Sync`, 10:00 to 10:30. -/
def demoInput : CreateInput :=
  { title := "Sync", description := none, startTime := demoDTStart,
    endTime := demoDTEnd, location := none, attendees := none,
    status := none, reminderMinutes := none }

/-- The record `createAppointment [] "t1" "u1" … demoInput "id-1" 100` returns. -/
def demoAppt1 : Appointment :=
  { appointmentId := "id-1", tenantId := "t1", userId := "u1", title := "Sync",
    description := none, startTime := demoDTStart, endTime := demoDTEnd,
    location := none, attendees := [], status := .scheduled,
    reminderMinutes := 60, createdAt := 100, updatedAt := 100,
    ttl := 100 + 365 * 24 * 60 * 60 }

/-- The item that create persists for `demoAppt1`. -/
def demoItem1 : Item :=
  { PK := pkOf "t1" "id-1", SK := skOf "id-1", GSI1PK := gsi1pkOf "t1",
    GSI1SK := gsiSKOf demoDTStart, GSI2PK := gsi2pkOf "t1" "u1",
    GSI2SK := gsiSKOf demoDTStart, appt := demoAppt1 }

/-- A one-record store holding `demoAppt1`. -/
def demoStore1 : Store := [demoItem1]

/-- No query filters supplied. -/
def noFilters : AppointmentFilters := ⟨none, none, none, none⟩

/-- A patch renaming the appointment. -/
def demoPatchTitle : UpdatePatch := { emptyPatch with title := some "Renamed" }

/-- A patch moving `endTime` to 09:00, one hour before the stored 10:00
start. -/
def demoPatchBadEnd : UpdatePatch := { emptyPatch with endTime := some demoDTEarly }

/-- A patch moving `startTime` to 2024-07-15T09:00. -/
def demoPatchNewStart : UpdatePatch := { emptyPatch with startTime := some demoDTStart2 }

/-! ### String-key helper lemmas -/

/-- Cancel a shared prefix of a string concatenation. -/
theorem strAppend_cancel_left {s a b : String} (h : s ++ a = s ++ b) : a = b := by
  apply String.ext
  have hd := congrArg String.data h
  simp only [String.data_append] at hd
  exact List.append_cancel_left hd

/-- Cancel a shared suffix of a string concatenation. -/
theorem strAppend_cancel_right {a b s : String} (h : a ++ s = b ++ s) : a = b := by
  apply String.ext
  have hd := congrArg String.data h
  simp only [String.data_append] at hd
  exact List.append_cancel_right hd

/-- `SK` determines the appointment id. -/
theorem skOf_inj {a1 a2 : String} (h : skOf a1 = skOf a2) : a1 = a2 :=
  strAppend_cancel_left h

/-- With the appointment id fixed, `PK` determines the tenant id. -/
theorem pkOf_inj_tenant {t1 t2 a : String} (h : pkOf t1 a = pkOf t2 a) : t1 = t2 := by
  unfold pkOf at h
  have h1 : "TENANT#" ++ t1 ++ "#APPOINTMENT#" = "TENANT#" ++ t2 ++ "#APPOINTMENT#" :=
    strAppend_cancel_right h
  exact strAppend_cancel_left (strAppend_cancel_right h1)

/-! ### C4 — primary-key injectivity -/

/-- C4: for all `(tenantId, appointmentId)` pairs, the primary-key derivation
is injective: two distinct pairs never produce an equal `(PK, SK)` key
pair.  (`SK` pins the appointment id, after which `PK` pins the tenant.) -/
theorem c4_primary_key_injective (t1 a1 t2 a2 : String)
    (hne : t1 ≠ t2 ∨ a1 ≠ a2) :
    (pkOf t1 a1, skOf a1) ≠ (pkOf t2 a2, skOf a2) := by
  intro h
  have hpk : pkOf t1 a1 = pkOf t2 a2 := congrArg Prod.fst h
  have hsk : skOf a1 = skOf a2 := congrArg Prod.snd h
  have ha : a1 = a2 := skOf_inj hsk
  subst ha
  have ht : t1 = t2 := pkOf_inj_tenant hpk
  rcases hne with h' | h'
  · exact h' ht
  · exact h' rfl

/-- Witness for C4 at the concrete pairs `("t1","a1")` and `("t2","a1")`. -/
theorem c4_primary_key_injective_witness :
    (pkOf "t1" "a1", skOf "a1") ≠ (pkOf "t2" "a1", skOf "a1") :=
  c4_primary_key_injective "t1" "a1" "t2" "a1" (Or.inl (by decide))

/-! ### C8 — create rejects `endTime ≤ startTime` atomically -/

/-- C8: whenever the create input's `endTime` is not strictly after its
`startTime`, `createAppointment` fails with the validation error and the
store is unchanged — no record and no index entries are written. -/
theorem c8_create_rejects_bad_times (store : Store)
    (tenantId userId userRole : String) (input : CreateInput)
    (newId : String) (now : Nat)
    (h : DateTime.ltb input.startTime input.endTime = false) :
    AppointmentService.createAppointment store tenantId userId userRole input newId now
      = .error .validationError ∧
    storeAfterCreate store tenantId userId userRole input newId now = store := by
  have hv : createInputValid input = false := by
    simp [createInputValid, h]
  constructor
  · simp [AppointmentService.createAppointment, hv]
  · simp [storeAfterCreate, AppointmentService.createAppointment, hv]

/-- Witness for C8: creating with `endTime` one hour before `startTime`. -/
theorem c8_create_rejects_bad_times_witness :
    DateTime.ltb demoDTStart demoDTEarly = false ∧
    (AppointmentService.createAppointment [] "t1" "u1" "tenant-user"
        { demoInput with startTime := demoDTStart, endTime := demoDTEarly } "id-1" 100
      = .error .validationError ∧
     storeAfterCreate [] "t1" "u1" "tenant-user"
        { demoInput with startTime := demoDTStart, endTime := demoDTEarly } "id-1" 100 = []) :=
  ⟨by decide,
   c8_create_rejects_bad_times [] "t1" "u1" "tenant-user"
     { demoInput with startTime := demoDTStart, endTime := demoDTEarly } "id-1" 100 (by decide)⟩

/-! ### C7 — the empty patch -/

/-- C7 counterexample: on a store holding the record, `update` with the empty
patch `{}` does not succeed — `updateAppointmentSchema`'s `.min(1)` rejects
it with a validation error, both on the first and on the second call. -/
theorem c7_empty_patch_counterexample :
    AppointmentService.updateAppointment demoStore1 "t1" "id-1" "u1" "tenant-user"
      emptyPatch 200 = .error .validationError ∧
    AppointmentService.updateAppointment
      (storeAfterUpdate demoStore1 "t1" "id-1" "u1" "tenant-user" emptyPatch 200)
      "t1" "id-1" "u1" "tenant-user" emptyPatch 300 = .error .validationError := by
  constructor <;> rfl

/-- C7 amended: `update` with the empty patch `{}` always fails with the
validation error (Joi `.min(1)`), leaving the store — hence `startTime`,
`endTime` and the index placement — unchanged; repeating it yields the same
outcome. -/
theorem c7_empty_patch_rejected (store : Store)
    (tenantId appointmentId userId userRole : String) (now : Nat) :
    AppointmentService.updateAppointment store tenantId appointmentId userId userRole
      emptyPatch now = .error .validationError ∧
    storeAfterUpdate store tenantId appointmentId userId userRole emptyPatch now = store := by
  have hv : updatePatchValid emptyPatch = false := rfl
  constructor
  · simp [AppointmentService.updateAppointment, hv]
  · simp [storeAfterUpdate, AppointmentService.updateAppointment, hv]

/-! ### C10 — default deny for unrecognized roles -/

/-- C10: an identity whose group list contains none of `super-admin`,
`tenant-admin`, `tenant-user` is denied tenant access for every requested
tenant (including its own), so `validateRequest` rejects the request before
any store operation. -/
theorem c10_default_deny (sub : String) (groups : List String)
    (userTenantId requestedTenantId : String)
    (h1 : groups.contains "super-admin" = false)
    (h2 : groups.contains "tenant-admin" = false)
    (h3 : groups.contains "tenant-user" = false) :
    AuthService.hasTenantAccess groups userTenantId requestedTenantId = false ∧
    (AuthService.validateClaims sub groups userTenantId requestedTenantId).isValid = false := by
  have hta : AuthService.hasTenantAccess groups userTenantId requestedTenantId = false := by
    simp at h1 h2 h3
    simp [AuthService.hasTenantAccess, h1, h2, h3]
  exact ⟨hta, by simp [AuthService.validateClaims, hta]⟩

/-- Witness for C10: a `["guest"]` group list is denied even for its own
tenant. -/
theorem c10_default_deny_witness :
    (["guest"].contains "super-admin" = false ∧
     ["guest"].contains "tenant-admin" = false ∧
     ["guest"].contains "tenant-user" = false) ∧
    (AuthService.hasTenantAccess ["guest"] "t1" "t1" = false ∧
     (AuthService.validateClaims "u1" ["guest"] "t1" "t1").isValid = false) :=
  ⟨⟨by decide, by decide, by decide⟩,
   c10_default_deny "u1" ["guest"] "t1" "t1" (by decide) (by decide) (by decide)⟩

/-! ### C2 — update does not re-validate `endTime > startTime` -/

/-- C2, evaluated at the failing input: patching only `endTime` to 09:00 on a
record running 10:00-10:30 passes `updateAppointmentSchema` (which has no
cross-field rule), and `updateAppointment` succeeds, storing a merged record
whose `endTime` is strictly before its `startTime` — no `ValidationError` is
raised and the `endTime > startTime` invariant is broken in the store. -/
theorem c2_update_skips_merged_validation :
    AppointmentService.updateAppointment demoStore1 "t1" "id-1" "u1" "tenant-user"
      demoPatchBadEnd 200
      = .ok (some (demoPatchBadEnd.applyTo demoAppt1 200),
             [{ demoItem1 with appt := demoPatchBadEnd.applyTo demoAppt1 200 }]) ∧
    DateTime.ltb (demoPatchBadEnd.applyTo demoAppt1 200).endTime
      (demoPatchBadEnd.applyTo demoAppt1 200).startTime = true := by
  constructor <;> rfl

/-! ### C3 — update does not recompute the GSI sort keys -/

/-- C3, evaluated at the failing input: patching `startTime` from
2024-06-01T10:00 to 2024-07-15T09:00 leaves the stored item's `GSI1SK` and
`GSI2SK` at the old encoding (the generated `UpdateExpression` only sets
`updatedAt` and the patched attributes), so after the update neither index
sort key encodes the record's current `startTime`. -/
theorem c3_update_leaves_stale_index_keys :
    storeAfterUpdate demoStore1 "t1" "id-1" "u1" "tenant-user" demoPatchNewStart 200
      = [{ demoItem1 with appt := demoPatchNewStart.applyTo demoAppt1 200 }] ∧
    (demoPatchNewStart.applyTo demoAppt1 200).startTime = demoDTStart2 ∧
    demoItem1.GSI1SK = gsiSKOf demoDTStart ∧
    demoItem1.GSI2SK = gsiSKOf demoDTStart ∧
    gsiSKOf demoDTStart ≠ gsiSKOf demoDTStart2 := by
  refine ⟨rfl, rfl, rfl, rfl, ?_⟩
  decide

/-! ### C5 — who may mutate a record -/

/-- C5 counterexample: a tenant-wide administrator of the record's own tenant
(`u2`, role `tenant-admin`) is *not* allowed to update or delete another
user's appointment — both operations throw the access-denied error and the
store is unchanged, contradicting the claim that tenant administrators may
mutate. -/
theorem c5_tenant_admin_denied_counterexample :
    AppointmentService.updateAppointment demoStore1 "t1" "id-1" "u2" "tenant-admin"
      demoPatchTitle 200 = .error .accessDenied ∧
    AppointmentService.deleteAppointment demoStore1 "t1" "id-1" "u2" "tenant-admin"
      = .error .accessDenied ∧
    storeAfterUpdate demoStore1 "t1" "id-1" "u2" "tenant-admin" demoPatchTitle 200 = demoStore1 ∧
    storeAfterDelete demoStore1 "t1" "id-1" "u2" "tenant-admin" = demoStore1 :=
  ⟨rfl, rfl, rfl, rfl⟩

/-- C5 amended: an existing appointment may be updated or deleted only by its
owner or by a super administrator; every other authenticated identity
(tenant administrators of its tenant included) gets the access-denied error
and the record is unchanged. -/
theorem c5_owner_or_superadmin_only (store : Store)
    (tenantId appointmentId userId userRole : String)
    (patch : UpdatePatch) (now : Nat) (it : Item)
    (hfind : findItem store (pkOf tenantId appointmentId) (skOf appointmentId) = some it)
    (hpatch : updatePatchValid patch = true) :
    ((userRole ≠ "super-admin" ∧ userId ≠ it.appt.userId) →
      AppointmentService.updateAppointment store tenantId appointmentId userId userRole patch now
        = .error .accessDenied ∧
      AppointmentService.deleteAppointment store tenantId appointmentId userId userRole
        = .error .accessDenied ∧
      storeAfterUpdate store tenantId appointmentId userId userRole patch now = store ∧
      storeAfterDelete store tenantId appointmentId userId userRole = store) ∧
    ((userRole = "super-admin" ∨ userId = it.appt.userId) →
      AppointmentService.updateAppointment store tenantId appointmentId userId userRole patch now
        = .ok (some (patch.applyTo it.appt now),
               store.map (fun i =>
                 if i.PK == pkOf tenantId appointmentId && i.SK == skOf appointmentId then
                   { i with appt := patch.applyTo i.appt now }
                 else i)) ∧
      AppointmentService.deleteAppointment store tenantId appointmentId userId userRole
        = .ok (true, store.filter (fun i =>
            !(i.PK == pkOf tenantId appointmentId && i.SK == skOf appointmentId)))) := by
  constructor
  · rintro ⟨hrole, howner⟩
    have hc : (userRole != "super-admin" && it.appt.userId != userId) = true := by
      simp [bne_iff_ne]
      exact ⟨hrole, fun he => howner he.symm⟩
    have hget : AppointmentService.getAppointment store tenantId appointmentId userId userRole
        = .error .accessDenied := by
      simp [AppointmentService.getAppointment, hfind, hc]
    refine ⟨?_, ?_, ?_, ?_⟩
    · simp [AppointmentService.updateAppointment, hpatch, hget]
    · simp [AppointmentService.deleteAppointment, hget]
    · simp [storeAfterUpdate, AppointmentService.updateAppointment, hpatch, hget]
    · simp [storeAfterDelete, AppointmentService.deleteAppointment, hget]
  · intro h
    have hc : (userRole != "super-admin" && it.appt.userId != userId) = false := by
      rcases h with h | h <;> simp [h, bne_iff_ne]
    have hget : AppointmentService.getAppointment store tenantId appointmentId userId userRole
        = .ok (some it.appt) := by
      simp [AppointmentService.getAppointment, hfind, hc]
    constructor
    · simp [AppointmentService.updateAppointment, hpatch, hget, hc]
    · simp [AppointmentService.deleteAppointment, hget, hc]

/-- Witness for C5 amended, at the demo store: the non-owner tenant-admin
`u2` is denied the update. -/
theorem c5_owner_or_superadmin_only_witness :
    AppointmentService.updateAppointment demoStore1 "t1" "id-1" "u2" "tenant-admin"
      demoPatchTitle 300 = .error .accessDenied ∧
    AppointmentService.deleteAppointment demoStore1 "t1" "id-1" "u2" "tenant-admin"
      = .error .accessDenied ∧
    storeAfterUpdate demoStore1 "t1" "id-1" "u2" "tenant-admin" demoPatchTitle 300 = demoStore1 ∧
    storeAfterDelete demoStore1 "t1" "id-1" "u2" "tenant-admin" = demoStore1 :=
  (c5_owner_or_superadmin_only demoStore1 "t1" "id-1" "u2" "tenant-admin"
      demoPatchTitle 300 demoItem1 (by decide) (by decide)).1
    ⟨by decide, by decide⟩

/-! ### C6 — create / getById round-trip -/

/-- C6: after every successful create, a `getAppointment` with the same
tenant and the returned appointment id, performed by the creating user
(the record's owner, hence an authorized identity, whatever role string it
carries), returns exactly the record create returned. -/
theorem c6_create_get_roundtrip (store : Store) (tenantId userId userRole : String)
    (input : CreateInput) (newId : String) (now : Nat)
    (a : Appointment) (store2 : Store) (role2 : String)
    (h : AppointmentService.createAppointment store tenantId userId userRole input newId now
          = .ok (a, store2)) :
    AppointmentService.getAppointment store2 tenantId a.appointmentId userId role2
      = .ok (some a) := by
  unfold AppointmentService.createAppointment at h
  cases hv : createInputValid input with
  | false =>
    rw [hv] at h
    simp at h
  | true =>
    rw [hv] at h
    simp only [Bool.not_true, Bool.false_eq_true, if_false] at h
    cases hfind : findItem store (pkOf tenantId newId) (skOf newId) with
    | some it =>
      rw [hfind] at h
      simp at h
    | none =>
      rw [hfind] at h
      injection h with h'
      injection h' with ha hs
      subst hs
      subst ha
      simp [AppointmentService.getAppointment, findItem]

/-- Witness for C6: the demo create on the empty store, read back by its
creator. -/
theorem c6_create_get_roundtrip_witness :
    AppointmentService.getAppointment demoStore1 "t1" demoAppt1.appointmentId "u1" "tenant-user"
      = .ok (some demoAppt1) :=
  c6_create_get_roundtrip [] "t1" "u1" "tenant-user" demoInput "id-1" 100
    demoAppt1 demoStore1 "tenant-user" rfl

/-! ### C1 — cross-tenant isolation -/

/-- An identifier that avoids the `#` character the key codec uses as its
namespace separator. -/
def hashFree (s : String) : Prop := '#' ∉ s.data

instance (s : String) : Decidable (hashFree s) := by
  unfold hashFree; infer_instance

/-- Splitting at a separator character absent from both prefixes is
unambiguous. -/
theorem sep_append_inj : ∀ {xs ys r1 r2 : List Char},
    '#' ∉ xs → '#' ∉ ys → xs ++ '#' :: r1 = ys ++ '#' :: r2 → xs = ys ∧ r1 = r2 := by
  intro xs
  induction xs with
  | nil =>
    intro ys r1 r2 _ hy h
    cases ys with
    | nil =>
      simp at h
      exact ⟨rfl, h⟩
    | cons y ys' =>
      simp at h
      obtain ⟨h1, -⟩ := h
      cases h1
      exact absurd (List.mem_cons_self _ _) hy
  | cons x xs' ih =>
    intro ys r1 r2 hx hy h
    cases ys with
    | nil =>
      simp at h
      obtain ⟨h1, -⟩ := h
      cases h1
      exact absurd (List.mem_cons_self _ _) hx
    | cons y ys' =>
      simp at h
      obtain ⟨h1, h2⟩ := h
      have hr := ih (fun hm => hx (List.mem_cons_of_mem _ hm))
        (fun hm => hy (List.mem_cons_of_mem _ hm)) h2
      exact ⟨by rw [h1, hr.1], hr.2⟩

/-- For `#`-free tenant ids, the owner-index partition key determines the
tenant. -/
theorem gsi2pkOf_inj_tenant {t1 u1 t2 u2 : String}
    (h1 : hashFree t1) (h2 : hashFree t2)
    (h : gsi2pkOf t1 u1 = gsi2pkOf t2 u2) : t1 = t2 := by
  have hd := congrArg String.data h
  simp only [gsi2pkOf, String.data_append, List.append_assoc] at hd
  have hc := List.append_cancel_left hd
  exact String.ext (sep_append_inj h1 h2 hc).1

/-- C1 amended: cross-tenant isolation holds for tenant ids that avoid the
`#` key-separator character.  Under a store whose items carry the keys the
codec derives (as `create` writes them), with globally unique appointment
ids: a list call by a non-super-admin identity of `#`-free tenant B never
returns a record of a different tenant A, and a `getAppointment` for any of
tenant A's ids under tenant B's scope answers exactly as for an absent id
(`ok none`, i.e. NotFound), for any caller identity.  (The `#`-free proviso
is forced by `c1_hash_injection_counterexample`; the `getById` half needs no
such proviso beyond id uniqueness.) -/
theorem c1_cross_tenant_isolation (store : Store)
    (tenantA tenantB userB roleB uid2 role2 : String)
    (filters : AppointmentFilters) (it : Item)
    (hwfPK : ∀ i ∈ store, i.PK = pkOf i.appt.tenantId i.appt.appointmentId)
    (hwfSK : ∀ i ∈ store, i.SK = skOf i.appt.appointmentId)
    (hwfG2 : ∀ i ∈ store, i.GSI2PK = gsi2pkOf i.appt.tenantId i.appt.userId)
    (htf : ∀ i ∈ store, hashFree i.appt.tenantId)
    (hids : store.Pairwise (fun x y => x.appt.appointmentId ≠ y.appt.appointmentId))
    (hB : hashFree tenantB)
    (hrole : roleB ≠ "super-admin")
    (hit : it ∈ store) (hA : it.appt.tenantId = tenantA) (hAB : tenantA ≠ tenantB) :
    it.appt ∉ AppointmentService.listAppointments store tenantB userB roleB filters ∧
    AppointmentService.getAppointment store tenantB it.appt.appointmentId uid2 role2
      = .ok none := by
  constructor
  · intro hmem
    have hrb : (roleB == "super-admin") = false := by
      simp [hrole]
    simp only [AppointmentService.listAppointments, hrb, if_false,
      List.mem_map, List.mem_filter, Bool.false_eq_true] at hmem
    obtain ⟨i, ⟨⟨hi, hkey⟩, -⟩, happ⟩ := hmem
    have hkey' : i.GSI2PK = gsi2pkOf tenantB userB := by
      simpa using hkey
    have htid : i.appt.tenantId = tenantB :=
      gsi2pkOf_inj_tenant (htf i hi) hB ((hwfG2 i hi).symm.trans hkey')
    rw [happ, hA] at htid
    exact hAB htid
  · have hnone : findItem store (pkOf tenantB it.appt.appointmentId)
        (skOf it.appt.appointmentId) = none := by
      apply List.find?_eq_none.mpr
      intro i hi hpred
      simp only [Bool.and_eq_true, beq_iff_eq] at hpred
      obtain ⟨hpk, hsk⟩ := hpred
      have hid : i.appt.appointmentId = it.appt.appointmentId :=
        skOf_inj ((hwfSK i hi).symm.trans hsk)
      have htid : i.appt.tenantId = tenantB := by
        have := (hwfPK i hi).symm.trans hpk
        rw [hid] at this
        exact pkOf_inj_tenant this
      by_cases hsame : i = it
      · rw [hsame, hA] at htid
        exact hAB htid
      · have hsymm : Symmetric (fun x y : Item =>
            x.appt.appointmentId ≠ y.appt.appointmentId) :=
          fun x y hxy => fun e => hxy e.symm
        exact (hids.forall hsymm hi hit hsame) hid
    simp [AppointmentService.getAppointment, hnone]

/-- Witness for C1 amended: tenant `t2`'s user sees nothing of tenant `t1`
and gets NotFound on `t1`'s appointment id. -/
theorem c1_cross_tenant_isolation_witness :
    demoAppt1 ∉ AppointmentService.listAppointments demoStore1 "t2" "u2" "tenant-user" noFilters ∧
    AppointmentService.getAppointment demoStore1 "t2" demoAppt1.appointmentId "u2" "tenant-user"
      = .ok none :=
  c1_cross_tenant_isolation demoStore1 "t1" "t2" "u2" "tenant-user" "u2" "tenant-user"
    noFilters demoItem1 (by decide) (by decide) (by decide) (by decide) (by decide)
    (by decide) (by decide) (by decide) (by decide) (by decide)

/-- The record a tenant named `a` (owner `b#USER#c`) gets from `create`. -/
def demoVictimAppt : Appointment :=
  { demoAppt1 with tenantId := "a", userId := "b#USER#c" }

/-- The item `create` persists for `demoVictimAppt`. -/
def demoVictimItem : Item :=
  { PK := pkOf "a" "id-1", SK := skOf "id-1", GSI1PK := gsi1pkOf "a",
    GSI1SK := gsiSKOf demoDTStart, GSI2PK := gsi2pkOf "a" "b#USER#c",
    GSI2SK := gsiSKOf demoDTStart, appt := demoVictimAppt }

/-- The one-record store holding tenant `a`'s appointment. -/
def demoVictimStore : Store := [demoVictimItem]

/-- C1 counterexample to the claim as stated, over arbitrary identifier
strings: a record created under tenant `a` (owner `b#USER#c`) is returned by
a `list` call of the *different* tenant `a#USER#b` (role user, user id `c`),
because both derive the same owner-index key
`TENANT#a#USER#b#USER#c` — so universally quantified cross-tenant isolation
fails when ids may contain the `#` separator. -/
theorem c1_hash_injection_counterexample :
    AppointmentService.createAppointment [] "a" "b#USER#c" "tenant-user" demoInput "id-1" 100
      = .ok (demoVictimAppt, demoVictimStore) ∧
    AppointmentService.listAppointments demoVictimStore "a#USER#b" "c" "tenant-user" noFilters
      = [demoVictimAppt] ∧
    demoVictimAppt.tenantId = "a" ∧ ("a" : String) ≠ "a#USER#b" :=
  ⟨rfl, rfl, rfl, by decide⟩

/-! ### C9 — the GSI sort-key encoding is monotone in the start time

The string order is core's lexicographic `List.lt` on the character data;
the lemmas below relate it to the numeric order of the zero-padded fields. -/

/-- Lexicographic order on character lists is asymmetric. -/
theorem charListLt_asymm : ∀ {l1 l2 : List Char}, List.lt l1 l2 → ¬ List.lt l2 l1 := by
  intro l1 l2 h
  induction h with
  | nil b bs =>
    intro h2
    cases h2
  | head as bs hab =>
    intro h2
    cases h2 with
    | head _ _ hba => exact absurd hba (lt_asymm hab)
    | tail hba hab2 _ => exact hab2 hab
  | tail hab hba h ih =>
    intro h2
    cases h2 with
    | head _ _ hba2 => exact hba hba2
    | tail _ _ h2t => exact ih h2t

/-- Lexicographic order on character lists is irreflexive. -/
theorem charListLt_irrefl (l : List Char) : ¬ List.lt l l :=
  fun h => charListLt_asymm h h

/-- Consing the same character preserves strict lexicographic order. -/
theorem charListLt_cons_self (c : Char) {l1 l2 : List Char}
    (h : List.lt l1 l2) : List.lt (c :: l1) (c :: l2) :=
  List.lt.tail (lt_irrefl c) (lt_irrefl c) h

/-- Prepending the same prefix preserves strict lexicographic order. -/
theorem charListLt_append_left (p : List Char) {l1 l2 : List Char}
    (h : List.lt l1 l2) : List.lt (p ++ l1) (p ++ l2) := by
  induction p with
  | nil => exact h
  | cons c p ih => exact charListLt_cons_self c ih

/-- Two strictly ordered segments of equal length stay strictly ordered under
arbitrary continuations. -/
theorem charListLt_append {s1 s2 r1 r2 : List Char}
    (h : List.lt s1 s2) (hlen : s1.length = s2.length) :
    List.lt (s1 ++ r1) (s2 ++ r2) := by
  induction h with
  | nil b bs => simp at hlen
  | head as bs hab => exact List.lt.head _ _ hab
  | tail hab hba h ih =>
    simp only [List.length_cons, Nat.succ.injEq] at hlen
    exact List.lt.tail hab hba (ih hlen)

/-- ASCII digit characters are ordered like their digits. -/
theorem digitChar_lt {d1 d2 : Nat} (h : d1 < d2) (h2 : d2 ≤ 9) :
    digitChar d1 < digitChar d2 := by
  interval_cases d2 <;> interval_cases d1 <;> decide

/-- The padded rendering has its fixed width. -/
theorem padDigits_length (k : Nat) : ∀ n, (padDigits k n).length = k := by
  induction k with
  | zero => intro n; rfl
  | succ k ih => intro n; simp [padDigits, ih]

/-- Zero-padded fixed-width decimal strings of in-range numbers are
lexicographically ordered like the numbers. -/
theorem padDigits_lt : ∀ (k : Nat) {a b : Nat}, a < 10 ^ k → b < 10 ^ k →
    a < b → List.lt (padDigits k a) (padDigits k b) := by
  intro k
  induction k with
  | zero =>
    intro a b ha hb hab
    simp [Nat.pow_zero] at ha hb
    omega
  | succ k ih =>
    intro a b ha hb hab
    have hp : 0 < 10 ^ k := Nat.pos_pow_of_pos k (by norm_num)
    have epow : 10 ^ (k + 1) = 10 ^ k * 10 := pow_succ 10 k
    have hqb : b / 10 ^ k < 10 := by
      rw [Nat.div_lt_iff_lt_mul hp]
      omega
    have hq : a / 10 ^ k ≤ b / 10 ^ k := Nat.div_le_div_right (le_of_lt hab)
    show List.lt (digitChar (a / 10 ^ k) :: padDigits k (a % 10 ^ k))
      (digitChar (b / 10 ^ k) :: padDigits k (b % 10 ^ k))
    rcases Nat.lt_or_ge (a / 10 ^ k) (b / 10 ^ k) with hlt | hge
    · exact List.lt.head _ _ (digitChar_lt hlt (by omega))
    · have hqe : a / 10 ^ k = b / 10 ^ k := le_antisymm hq hge
      have hra : a % 10 ^ k < 10 ^ k := Nat.mod_lt _ hp
      have hrb : b % 10 ^ k < 10 ^ k := Nat.mod_lt _ hp
      have hrem : a % 10 ^ k < b % 10 ^ k := by
        have hab2 : 10 ^ k * (a / 10 ^ k) + a % 10 ^ k <
            10 ^ k * (b / 10 ^ k) + b % 10 ^ k := by
          rw [Nat.div_add_mod, Nat.div_add_mod]
          exact hab
        rw [hqe] at hab2
        omega
      rw [hqe]
      exact charListLt_cons_self _ (ih hra hrb hrem)

/-- The character data of the GSI sort-key encoding, right-associated. -/
def encData (t : DateTime) : List Char :=
  "DATE#".data ++ (padDigits 4 t.year ++ ("-".data ++ (padDigits 2 t.month ++
    ("-".data ++ (padDigits 2 t.day ++ ("#TIME#".data ++ (padDigits 2 t.hour ++
      (":".data ++ (padDigits 2 t.minute ++ (":".data ++ padDigits 2 t.second))))))))))

/-- The data of a padded number is its digit list. -/
theorem pad_data (k n : Nat) : (pad k n).data = padDigits k n := rfl

/-- `gsiSKOf` produces exactly `encData`. -/
theorem gsiSK_data (t : DateTime) : (gsiSKOf t).data = encData t := by
  simp only [gsiSKOf, encData, String.data_append, pad_data, List.append_assoc]

/-- Case analysis of a true `DateTime.ltb` comparison: the first strictly
smaller field, all earlier fields being equal. -/
theorem DateTime.ltb_cases {a b : DateTime} (h : DateTime.ltb a b = true) :
    a.year < b.year ∨
    (a.year = b.year ∧ a.month < b.month) ∨
    (a.year = b.year ∧ a.month = b.month ∧ a.day < b.day) ∨
    (a.year = b.year ∧ a.month = b.month ∧ a.day = b.day ∧ a.hour < b.hour) ∨
    (a.year = b.year ∧ a.month = b.month ∧ a.day = b.day ∧ a.hour = b.hour ∧
      a.minute < b.minute) ∨
    (a.year = b.year ∧ a.month = b.month ∧ a.day = b.day ∧ a.hour = b.hour ∧
      a.minute = b.minute ∧ a.second < b.second) ∨
    (a.year = b.year ∧ a.month = b.month ∧ a.day = b.day ∧ a.hour = b.hour ∧
      a.minute = b.minute ∧ a.second = b.second ∧ a.ms < b.ms) := by
  unfold DateTime.ltb at h
  rcases Nat.lt_trichotomy a.year b.year with hy | hy | hy
  · exact Or.inl hy
  · rw [if_neg (by omega), if_neg (by omega)] at h
    rcases Nat.lt_trichotomy a.month b.month with hm | hm | hm
    · exact Or.inr (Or.inl ⟨hy, hm⟩)
    · rw [if_neg (by omega), if_neg (by omega)] at h
      rcases Nat.lt_trichotomy a.day b.day with hd | hd | hd
      · exact Or.inr (Or.inr (Or.inl ⟨hy, hm, hd⟩))
      · rw [if_neg (by omega), if_neg (by omega)] at h
        rcases Nat.lt_trichotomy a.hour b.hour with hh | hh | hh
        · exact Or.inr (Or.inr (Or.inr (Or.inl ⟨hy, hm, hd, hh⟩)))
        · rw [if_neg (by omega), if_neg (by omega)] at h
          rcases Nat.lt_trichotomy a.minute b.minute with hmi | hmi | hmi
          · exact Or.inr (Or.inr (Or.inr (Or.inr (Or.inl ⟨hy, hm, hd, hh, hmi⟩))))
          · rw [if_neg (by omega), if_neg (by omega)] at h
            rcases Nat.lt_trichotomy a.second b.second with hs | hs | hs
            · exact Or.inr (Or.inr (Or.inr (Or.inr (Or.inr
                (Or.inl ⟨hy, hm, hd, hh, hmi, hs⟩)))))
            · rw [if_neg (by omega), if_neg (by omega)] at h
              have hms : a.ms < b.ms := by simpa using h
              exact Or.inr (Or.inr (Or.inr (Or.inr (Or.inr
                (Or.inr ⟨hy, hm, hd, hh, hmi, hs, hms⟩)))))
            · rw [if_neg (by omega), if_pos hs] at h
              simp at h
          · rw [if_neg (by omega), if_pos hmi] at h
            simp at h
        · rw [if_neg (by omega), if_pos hh] at h
          simp at h
      · rw [if_neg (by omega), if_pos hd] at h
        simp at h
    · rw [if_neg (by omega), if_pos hm] at h
      simp at h
  · rw [if_neg (by omega), if_pos hy] at h
    simp at h

/-- A chronologically earlier well-formed start time encodes to a
lexicographically smaller-or-equal sort key (equal exactly when only the
millisecond component, which the encoding drops, differs). -/
theorem encData_lt_or_eq (t1 t2 : DateTime) (w1 : t1.wf) (w2 : t2.wf)
    (h : DateTime.ltb t1 t2 = true) :
    List.lt (encData t1) (encData t2) ∨ encData t1 = encData t2 := by
  obtain ⟨hy1, hmo1, hd1, hh1, hmi1, hs1⟩ := w1
  obtain ⟨hy2, hmo2, hd2, hh2, hmi2, hs2⟩ := w2
  rcases DateTime.ltb_cases h with hy | ⟨hy, hmo⟩ | ⟨hy, hmo, hd⟩ |
    ⟨hy, hmo, hd, hh⟩ | ⟨hy, hmo, hd, hh, hmi⟩ | ⟨hy, hmo, hd, hh, hmi, hs⟩ |
    ⟨hy, hmo, hd, hh, hmi, hs, hms⟩ <;> unfold encData
  · -- year strictly smaller
    left
    exact charListLt_append_left _
      (charListLt_append (padDigits_lt 4 hy1 hy2 hy)
        (by rw [padDigits_length, padDigits_length]))
  · -- years equal, month strictly smaller
    left
    rw [hy]
    refine charListLt_append_left _ (charListLt_append_left _ (charListLt_append_left _ ?_))
    exact charListLt_append (padDigits_lt 2 hmo1 hmo2 hmo)
      (by rw [padDigits_length, padDigits_length])
  · -- day strictly smaller
    left
    rw [hy, hmo]
    refine charListLt_append_left _ (charListLt_append_left _ (charListLt_append_left _
      (charListLt_append_left _ (charListLt_append_left _ ?_))))
    exact charListLt_append (padDigits_lt 2 hd1 hd2 hd)
      (by rw [padDigits_length, padDigits_length])
  · -- hour strictly smaller
    left
    rw [hy, hmo, hd]
    refine charListLt_append_left _ (charListLt_append_left _ (charListLt_append_left _
      (charListLt_append_left _ (charListLt_append_left _ (charListLt_append_left _
        (charListLt_append_left _ ?_))))))
    exact charListLt_append (padDigits_lt 2 hh1 hh2 hh)
      (by rw [padDigits_length, padDigits_length])
  · -- minute strictly smaller
    left
    rw [hy, hmo, hd, hh]
    refine charListLt_append_left _ (charListLt_append_left _ (charListLt_append_left _
      (charListLt_append_left _ (charListLt_append_left _ (charListLt_append_left _
        (charListLt_append_left _ (charListLt_append_left _ (charListLt_append_left _ ?_))))))))
    exact charListLt_append (padDigits_lt 2 hmi1 hmi2 hmi)
      (by rw [padDigits_length, padDigits_length])
  · -- second strictly smaller
    left
    rw [hy, hmo, hd, hh, hmi]
    refine charListLt_append_left _ (charListLt_append_left _ (charListLt_append_left _
      (charListLt_append_left _ (charListLt_append_left _ (charListLt_append_left _
        (charListLt_append_left _ (charListLt_append_left _ (charListLt_append_left _
          (charListLt_append_left _ (charListLt_append_left _ ?_))))))))))
    exact padDigits_lt 2 hs1 hs2 hs
  · -- only the millisecond differs: equal encodings
    right
    rw [hy, hmo, hd, hh, hmi, hs]

/-- C9: the tenant-index sort-key encoding is monotone — for well-formed
start times, chronologically earlier (`DateTime.ltb`) implies the encoded
`GSI1SK` string (`gsiSKOf`, as written by `create` into `GSI1SK` and
`GSI2SK`) is lexicographically less than or equal, so a sort-key range scan
of the tenant index yields chronological order. -/
theorem c9_gsi_encoding_monotone (t1 t2 : DateTime) (w1 : t1.wf) (w2 : t2.wf)
    (h : DateTime.ltb t1 t2 = true) :
    String.le (gsiSKOf t1) (gsiSKOf t2) := by
  intro hcon
  have hc : List.lt (gsiSKOf t2).data (gsiSKOf t1).data := hcon
  rw [gsiSK_data, gsiSK_data] at hc
  rcases encData_lt_or_eq t1 t2 w1 w2 h with hlt | heq
  · exact charListLt_asymm hlt hc
  · rw [heq] at hc
    exact charListLt_irrefl _ hc

/-- Witness for C9: 2024-06-01T10:00 encodes no later than 2024-07-15T09:00. -/
theorem c9_gsi_encoding_monotone_witness :
    (demoDTStart.wf ∧ demoDTStart2.wf ∧ DateTime.ltb demoDTStart demoDTStart2 = true) ∧
    String.le (gsiSKOf demoDTStart) (gsiSKOf demoDTStart2) :=
  ⟨⟨by decide, by decide, by decide⟩,
   c9_gsi_encoding_monotone demoDTStart demoDTStart2 (by decide) (by decide) (by decide)⟩

end AppointifyX
